import Mathlib

/-!
Verification development for the PortifolioMaker video-export pipeline
(`VideoExportService`): the timeline resolver, animation state evaluator,
transition compositor and frame scheduler, shallowly embedded over ℚ.

Numeric fields of the editable model are embedded as `ℚ`; fields that the
export code reads defensively (`x?.f || d`, `x ?? d`) are embedded as
`Option ℚ` and read through the corresponding defaulting helpers, so that
JavaScript's falsy-default (`||`, which also replaces `0`) and
nullish-default (`??`, which keeps `0`) semantics are preserved exactly.
Bitmaps produced by the external rasterizer are abstracted to their
provenance (which image is drawn); geometry, alpha, filters and transforms
of every canvas draw call are kept.  Persistence-only metadata fields
(`createdAt`, `updatedAt`, `name`, element `metadata`, `border`, `shadow`,
text styling) are never read by the export pipeline and are omitted.
-/

namespace VideoExport

/-- JavaScript `v || d` on a number: `0` is falsy, so it falls to the default. -/
def orFalsy (v d : ℚ) : ℚ := if v = 0 then d else v

/-- JavaScript `o?.f || d` read of an optional numeric field. -/
def optOrFalsy (o : Option ℚ) (d : ℚ) : ℚ :=
  match o with
  | Option.none => d
  | Option.some v => orFalsy v d

/-- The animation kinds of `AnimationType` in `slide.model.ts`. -/
inductive AnimationType where
  | none | fadeIn | fadeInUp | fadeInDown | fadeInLeft | fadeInRight
  | zoomIn | zoomOut | bounceIn
  | slideInUp | slideInDown | slideInLeft | slideInRight
  | flipInX | flipInY | rotateIn
  | pulse | shake | swing
  | typewriter | letterByLetter | wordByWord | highlight | glitch
deriving DecidableEq

/-- The `startTrigger` values read by the export service and the
presentation component (`'onClick' | 'withPrevious' | 'afterPrevious'`). -/
inductive AnimationTrigger where
  | onClick | withPrevious | afterPrevious
deriving DecidableEq

/-- The transition kinds of `SlideTransitionType` in `slide.model.ts`. -/
inductive SlideTransitionType where
  | none | fade | slideLeft | slideRight | slideUp | slideDown
  | zoomIn | zoomOut | flip | rotate | blur | dissolve
deriving DecidableEq

/-- `ElementAnimation`: the fields the export pipeline reads.  The numeric
fields and `startTrigger` are optional because every read in the service is
defensive (`animation?.duration || 0.5`, `animation?.delay || 0`,
`animation?.order || 1`, `animation?.startTrigger || 'onClick'`); the
committed `slide.model.ts` snapshot predates `order`/`startTrigger`, whose
presence is witnessed by those reads.  `easing` and `repeat` are
informational for other consumers and never read here. -/
structure ElementAnimation where
  type : AnimationType
  duration : Option ℚ
  delay : Option ℚ
  order : Option ℚ
  startTrigger : Option AnimationTrigger
deriving DecidableEq

/-- `ElementPosition`: percentages of the output surface. -/
structure ElementPosition where
  x : ℚ
  y : ℚ
  width : ℚ
  height : ℚ
deriving DecidableEq

/-- The fields of `SlideElement` read by the export pipeline. -/
structure SlideElement where
  id : String
  position : ElementPosition
  zIndex : ℤ
  opacity : Option ℚ
  rotationDeg : Option ℚ
  animation : Option ElementAnimation
deriving DecidableEq

/-- `SlideTransition` of `slide.model.ts`. -/
structure SlideTransition where
  type : SlideTransitionType
  duration : ℚ
deriving DecidableEq

/-- The fields of `Slide` read by the export pipeline. -/
structure Slide where
  id : String
  elements : List SlideElement
  backgroundColor : String
  duration : ℚ
  transition : Option SlideTransition
deriving DecidableEq

/-- `VideoExportOptions` of `video-export.service.ts`. -/
structure VideoExportOptions where
  width : ℚ
  height : ℚ
  fps : ℚ
  quality : ℚ
  filename : String
deriving DecidableEq

/-- `defaultOptions` of `VideoExportService`. -/
def defaultOptions : VideoExportOptions :=
  { width := 1920, height := 1080, fps := 30, quality := 0.92,
    filename := "apresentacao" }

/-- `element.animation?.order || 1` (sort key of `preRenderSlide`). -/
def animOrder (el : SlideElement) : ℚ :=
  optOrFalsy (el.animation.bind (fun a => a.order)) 1

/-- `animation?.startTrigger || 'onClick'`. -/
def animTrigger (el : SlideElement) : AnimationTrigger :=
  (el.animation.bind (fun a => a.startTrigger)).getD AnimationTrigger.onClick

/-- `animation?.delay || 0`. -/
def animDelay (el : SlideElement) : ℚ :=
  optOrFalsy (el.animation.bind (fun a => a.delay)) 0

/-- `animation?.duration || 0.5`. -/
def animDuration (el : SlideElement) : ℚ :=
  optOrFalsy (el.animation.bind (fun a => a.duration)) 0.5

/-- `animation?.type || 'none'`. -/
def animType (el : SlideElement) : AnimationType :=
  (el.animation.map (fun a => a.type)).getD AnimationType.none

/-- One pass of the stable insertion used to model
`[...slide.elements].sort((a, b) => orderA - orderB)`: an element is placed
before the first element of strictly greater-or-equal key that originally
came after it, so ties keep the original list order. -/
def insertByOrder (x : SlideElement) : List SlideElement → List SlideElement
  | [] => [x]
  | y :: ys =>
      if animOrder x ≤ animOrder y then x :: y :: ys else y :: insertByOrder x ys

/-- The stable sort of `preRenderSlide` on `animation.order`.  JavaScript's
`Array.prototype.sort` is stable, and any stable sort on the same key
produces the same list, so insertion sort is an exact model. -/
def sortByOrder : List SlideElement → List SlideElement
  | [] => []
  | x :: xs => insertByOrder x (sortByOrder xs)

/-- `RenderedElement` of `video-export.service.ts` (the rasterized bitmap
`image` is external and carries no timing data). -/
structure RenderedElement where
  element : SlideElement
  x : ℚ
  y : ℚ
  width : ℚ
  height : ℚ
  startTime : ℚ
  duration : ℚ
  animationType : AnimationType
deriving DecidableEq

/-- `RenderedSlide` of `video-export.service.ts`; `fullSnapshot` records
whether the full-slide snapshot bitmap is present. -/
structure RenderedSlide where
  slide : Slide
  backgroundColor : String
  elements : List RenderedElement
  transitionType : SlideTransitionType
  transitionDuration : ℚ
  slideDuration : ℚ
  fullSnapshot : Bool
deriving DecidableEq

/-- One iteration of the timeline loop of `preRenderSlide` (lines 235-278):
state is `(lastEndTime, elements)`.  Note that the
`lastEndTime = Math.max(lastEndTime, startTime + duration)` update sits
inside the `animationType !== 'none'` guard but OUTSIDE the trigger
`if/else` chain, so it runs for every animated element, whatever its
trigger. -/
def resolveStep (transitionDuration : ℚ) (o : VideoExportOptions)
    (st : ℚ × List RenderedElement) (element : SlideElement) :
    ℚ × List RenderedElement :=
  let lastEndTime := st.1
  let elements := st.2
  let trigger := animTrigger element
  let extraDelay := animDelay element
  let duration := animDuration element
  let animationType := animType element
  let startTime : ℚ :=
    if animationType ≠ AnimationType.none then
      match trigger with
      | AnimationTrigger.onClick => transitionDuration + extraDelay
      | AnimationTrigger.withPrevious =>
          match (elements.filter
              (fun e => decide (e.animationType ≠ AnimationType.none))).getLast? with
          | Option.some prev => prev.startTime + extraDelay
          | Option.none => transitionDuration + extraDelay
      | AnimationTrigger.afterPrevious => lastEndTime + extraDelay
    else 0
  let lastEndTime' :=
    if animationType ≠ AnimationType.none then
      max lastEndTime (startTime + duration)
    else lastEndTime
  let re : RenderedElement :=
    { element := element,
      x := element.position.x / 100 * o.width,
      y := element.position.y / 100 * o.height,
      width := element.position.width / 100 * o.width,
      height := element.position.height / 100 * o.height,
      startTime := startTime,
      duration := duration,
      animationType := animationType }
  (lastEndTime', elements ++ [re])

/-- The `for (const element of sortedElements)` loop of `preRenderSlide`. -/
def resolveElements (transitionDuration : ℚ) (o : VideoExportOptions) :
    List SlideElement → ℚ × List RenderedElement → List RenderedElement
  | [], st => st.2
  | el :: rest, st =>
      resolveElements transitionDuration o rest
        (resolveStep transitionDuration o st el)

/-- `slide.transition?.duration || 0.5`. -/
def slideTransitionDuration (slide : Slide) : ℚ :=
  match slide.transition with
  | Option.none => 0.5
  | Option.some t => orFalsy t.duration 0.5

/-- `preRenderSlide` (timing and ordering parts; rasterization is external). -/
def preRenderSlide (slide : Slide) (o : VideoExportOptions) : RenderedSlide :=
  let transitionDuration := slideTransitionDuration slide
  let sortedElements := sortByOrder slide.elements
  { slide := slide,
    backgroundColor := slide.backgroundColor,
    elements := resolveElements transitionDuration o sortedElements
      (transitionDuration, []),
    transitionType := (slide.transition.map (fun t => t.type)).getD
      SlideTransitionType.none,
    transitionDuration := transitionDuration,
    slideDuration := orFalsy slide.duration 5,
    fullSnapshot := true }

/-- `getMaxAnimationEnd` of `video-export.service.ts`. -/
def getMaxAnimationEnd (slide : RenderedSlide) : ℚ :=
  slide.elements.foldl
    (fun m el =>
      if el.animationType ≠ AnimationType.none then
        if el.startTime + el.duration > m then el.startTime + el.duration else m
      else m) 0

/-- `contentDuration` as computed in `exportToVideo` (line 153). -/
def contentDuration (slide : RenderedSlide) : ℚ :=
  max (slide.slideDuration - slide.transitionDuration) (getMaxAnimationEnd slide)

/-- `Math.ceil(q)` clipped to the number of iterations of
`for (frame = 0; frame < n; frame++)`. -/
def ceilFrames (q : ℚ) : ℕ := (Int.ceil q).toNat

/-- A scheduled output frame: either a transition frame with the raw
progress passed to the compositor, or a content frame with its
`currentTime`. -/
inductive FrameKind where
  | transition (progress : ℚ)
  | content (currentTime : ℚ)
deriving DecidableEq

/-- The frames that `exportToVideo` emits for one slide (lines 155-172):
transition frames (only when a previous slide exists and the transition
type is not `none`) followed by content frames. -/
def slideFrames (fps : ℚ) (prevSlide : Option RenderedSlide)
    (slide : RenderedSlide) : List FrameKind :=
  (if prevSlide.isSome ∧ slide.transitionType ≠ SlideTransitionType.none then
    let transitionFrames := ceilFrames (slide.transitionDuration * fps)
    (List.range transitionFrames).map
      (fun frame : ℕ => FrameKind.transition ((frame : ℚ) / (transitionFrames : ℚ)))
  else []) ++
  (let totalFrames := ceilFrames (contentDuration slide * fps)
   (List.range totalFrames).map
     (fun frame : ℕ =>
       FrameKind.content (slide.transitionDuration + (frame : ℚ) / fps)))

/-- The rendering loop of `exportToVideo`, threading the previous rendered
slide (`prevSlide = i > 0 ? renderedSlides[i-1] : null`). -/
def exportFramesFrom (fps : ℚ) :
    Option RenderedSlide → List RenderedSlide → List FrameKind
  | _, [] => []
  | prev, s :: rest => slideFrames fps prev s ++ exportFramesFrom fps (Option.some s) rest

/-- The complete frame schedule of an export: pre-render every slide, then
emit every slide's transition and content frames in order. -/
def exportVideoFrames (o : VideoExportOptions) (slides : List Slide) :
    List FrameKind :=
  exportFramesFrom o.fps Option.none (slides.map (fun s => preRenderSlide s o))

/-- `easeOutCubic(t) = 1 - (1-t)^3`. -/
def easeOutCubic (t : ℚ) : ℚ := 1 - (1 - t) ^ 3

/-- `easeInOutCubic(t)`. -/
def easeInOutCubic (t : ℚ) : ℚ :=
  if t < 0.5 then 4 * t * t * t else 1 - (-2 * t + 2) ^ 3 / 2

/-- The visual transform returned by `getAnimationState`. -/
structure AnimationState where
  opacity : ℚ
  translateX : ℚ
  translateY : ℚ
  scale : ℚ
  rotationDeg : ℚ
deriving DecidableEq

/-- The untransformed rest state: the local defaults of `getAnimationState`
(`opacity = 1`, no translation, `scale = 1`, no rotation). -/
def restState : AnimationState :=
  { opacity := 1, translateX := 0, translateY := 0, scale := 1, rotationDeg := 0 }

/-- `getAnimationState` of `video-export.service.ts`: the source initializes
the rest-state defaults and then overwrites fields per `case`; each match arm
below gives the resulting record of that arm.  The text-reveal kinds
(`typewriter` … `glitch`) and `none` hit the `default` arm (plain fade). -/
def getAnimationState (type : AnimationType) (progress width height : ℚ) :
    AnimationState :=
  match type with
  | AnimationType.fadeIn => { restState with opacity := progress }
  | AnimationType.fadeInUp =>
      { restState with opacity := progress, translateY := (1 - progress) * 50 }
  | AnimationType.fadeInDown =>
      { restState with opacity := progress, translateY := (1 - progress) * (-50) }
  | AnimationType.fadeInLeft =>
      { restState with opacity := progress, translateX := (1 - progress) * (-50) }
  | AnimationType.fadeInRight =>
      { restState with opacity := progress, translateX := (1 - progress) * 50 }
  | AnimationType.slideInUp =>
      { restState with opacity := progress, translateY := (1 - progress) * height }
  | AnimationType.slideInDown =>
      { restState with opacity := progress, translateY := (1 - progress) * (-height) }
  | AnimationType.slideInLeft =>
      { restState with opacity := progress, translateX := (1 - progress) * (-width) }
  | AnimationType.slideInRight =>
      { restState with opacity := progress, translateX := (1 - progress) * width }
  | AnimationType.zoomIn =>
      { restState with opacity := progress, scale := 0.3 + progress * 0.7 }
  | AnimationType.zoomOut =>
      { restState with opacity := progress, scale := 1.5 - progress * 0.5 }
  | AnimationType.bounceIn =>
      { restState with
        opacity := progress,
        scale :=
          if progress < 0.6 then progress * 1.8
          else if progress < 0.8 then 1.1 - (progress - 0.6) * 0.5
          else 0.9 + (progress - 0.8) * 0.5 }
  | AnimationType.rotateIn =>
      { restState with
        opacity := progress,
        scale := 0.3 + progress * 0.7,
        rotationDeg := (1 - progress) * (-180) }
  | AnimationType.flipInX =>
      { restState with
        opacity := progress,
        scale := if progress < 0.5 then progress * 2 else 1 }
  | AnimationType.flipInY =>
      { restState with
        opacity := progress,
        scale := if progress < 0.5 then progress * 2 else 1 }
  | AnimationType.pulse => restState
  | AnimationType.shake => restState
  | AnimationType.swing => restState
  | _ => { restState with opacity := progress }

/-- One `ctx.drawImage` of a pre-rendered element bitmap in
`renderSlideFrame`, with the canvas state applied to it: `alpha` is
`opacity * (element.opacity ?? 1)`, `(tx, ty)` the translation
`(centerX + translateX, centerY + translateY)`, `rotationDeg` the total
rotation in degrees, `scale` the uniform scale, and `(w, h)` the centred
destination size. -/
structure ContentDrawOp where
  elementId : String
  alpha : ℚ
  tx : ℚ
  ty : ℚ
  rotationDeg : ℚ
  scale : ℚ
  w : ℚ
  h : ℚ
deriving DecidableEq

/-- A content frame: the background fill followed by the element draws. -/
structure ContentFrame where
  background : String
  ops : List ContentDrawOp
deriving DecidableEq

/-- The draw call `renderSlideFrame` issues for one visible element: the
animation state (rest state after the animation has ended and for
un-animated elements) composed with the element's own static opacity and
rotation, centred at the element's rectangle. -/
def elementDrawOp (currentTime : ℚ) (el : RenderedElement) : ContentDrawOp :=
  let state :=
    if el.animationType ≠ AnimationType.none ∧
        currentTime < el.startTime + el.duration then
      getAnimationState el.animationType
        (easeOutCubic ((currentTime - el.startTime) / el.duration))
        el.width el.height
    else restState
  { elementId := el.element.id,
    alpha := state.opacity * (el.element.opacity.getD 1),
    tx := el.x + el.width / 2 + state.translateX,
    ty := el.y + el.height / 2 + state.translateY,
    rotationDeg := state.rotationDeg + (el.element.rotationDeg.getD 0),
    scale := state.scale,
    w := el.width,
    h := el.height }

/-- The per-element body of `renderSlideFrame`: `none` when `shouldDraw`
is false (an animated element before its `startTime`), otherwise its draw
op. -/
def drawElement (currentTime : ℚ) (el : RenderedElement) : Option ContentDrawOp :=
  if el.animationType ≠ AnimationType.none ∧ currentTime < el.startTime then
    Option.none
  else
    Option.some (elementDrawOp currentTime el)

/-- `renderSlideFrame` of `video-export.service.ts` (lines 480-534). -/
def renderSlideFrame (slide : RenderedSlide) (currentTime : ℚ) : ContentFrame :=
  { background := slide.backgroundColor,
    ops := slide.elements.filterMap (drawElement currentTime) }

/-- Which bitmap a transition draw call reads: the previous slide's full
snapshot, the next slide's full snapshot, or the background-only canvas
filled with the next slide's background color. -/
inductive TransitionSource where
  | prevImage | nextImage | nextBg
deriving DecidableEq

/-- One `ctx.drawImage` of a transition frame with the canvas state applied:
`alpha` is `globalAlpha`, `brightness` the brightness filter factor,
`(tx, ty, rotPi, ctxScale)` the canvas transform (`rotPi` is the rotation as
a rational multiple of π), `(x, y)` the destination corner and `(w, h)` the
destination size (`none` when `drawImage` is called without a size, using
the bitmap's natural size). -/
structure TransitionDrawOp where
  src : TransitionSource
  alpha : ℚ := 1
  brightness : ℚ := 1
  tx : ℚ := 0
  ty : ℚ := 0
  rotPi : ℚ := 0
  ctxScale : ℚ := 1
  x : ℚ
  y : ℚ
  w : Option ℚ
  h : Option ℚ
deriving DecidableEq

/-- `renderTransitionFrame` of the pre-rendered pipeline (part_011 lines
632-721): the previous side is the (optional) full-slide snapshot, the next
side is a canvas holding only the next slide's background color; the switch
covers `fade`, the four `slide*` pushes and the two zooms, and every other
type — including `flip`, `rotate`, `blur` and `dissolve` — falls to the
`default` arm, which draws only the next slide's background canvas. -/
def renderTransitionFrameV1 (prevSlide nextSlide : RenderedSlide)
    (progress : ℚ) (o : VideoExportOptions) : List TransitionDrawOp :=
  let width := o.width
  let height := o.height
  let ease := easeInOutCubic progress
  let prevOps (op : TransitionDrawOp) : List TransitionDrawOp :=
    if prevSlide.fullSnapshot then [op] else []
  match nextSlide.transitionType with
  | SlideTransitionType.fade =>
      prevOps { src := TransitionSource.prevImage, alpha := 1 - ease,
                x := 0, y := 0, w := Option.none, h := Option.none } ++
      [{ src := TransitionSource.nextBg, alpha := ease,
         x := 0, y := 0, w := Option.none, h := Option.none }]
  | SlideTransitionType.slideLeft =>
      prevOps { src := TransitionSource.prevImage,
                x := -width * ease, y := 0, w := Option.none, h := Option.none } ++
      [{ src := TransitionSource.nextBg,
         x := width * (1 - ease), y := 0, w := Option.none, h := Option.none }]
  | SlideTransitionType.slideRight =>
      prevOps { src := TransitionSource.prevImage,
                x := width * ease, y := 0, w := Option.none, h := Option.none } ++
      [{ src := TransitionSource.nextBg,
         x := -width * (1 - ease), y := 0, w := Option.none, h := Option.none }]
  | SlideTransitionType.slideUp =>
      prevOps { src := TransitionSource.prevImage,
                x := 0, y := -height * ease, w := Option.none, h := Option.none } ++
      [{ src := TransitionSource.nextBg,
         x := 0, y := height * (1 - ease), w := Option.none, h := Option.none }]
  | SlideTransitionType.slideDown =>
      prevOps { src := TransitionSource.prevImage,
                x := 0, y := height * ease, w := Option.none, h := Option.none } ++
      [{ src := TransitionSource.nextBg,
         x := 0, y := -height * (1 - ease), w := Option.none, h := Option.none }]
  | SlideTransitionType.zoomIn =>
      let scaleIn := 0.5 + 0.5 * ease
      prevOps { src := TransitionSource.prevImage, alpha := 1 - ease,
                x := 0, y := 0, w := Option.none, h := Option.none } ++
      [{ src := TransitionSource.nextBg, alpha := ease,
         x := (width - width * scaleIn) / 2, y := (height - height * scaleIn) / 2,
         w := Option.some (width * scaleIn), h := Option.some (height * scaleIn) }]
  | SlideTransitionType.zoomOut =>
      let scaleOut := 1 + 0.5 * ease
      [{ src := TransitionSource.nextBg, alpha := ease,
         x := 0, y := 0, w := Option.none, h := Option.none }] ++
      prevOps { src := TransitionSource.prevImage, alpha := 1 - ease,
                x := (width - width * scaleOut) / 2, y := (height - height * scaleOut) / 2,
                w := Option.some (width * scaleOut), h := Option.some (height * scaleOut) }
  | _ =>
      [{ src := TransitionSource.nextBg,
         x := 0, y := 0, w := Option.none, h := Option.none }]

/-- `renderTransitionFrame` of the snapshot-based pipeline (part_011 lines
1073-1203): both sides are full-slide snapshot images, and the switch covers
all twelve transition types, `flip` branching on the RAW progress while the
other kinds use the eased progress. -/
def renderTransitionFrameV2 (transitionType : SlideTransitionType)
    (progress : ℚ) (o : VideoExportOptions) : List TransitionDrawOp :=
  let width := o.width
  let height := o.height
  let easeProgress := easeInOutCubic progress
  match transitionType with
  | SlideTransitionType.fade =>
      [{ src := TransitionSource.prevImage, alpha := 1 - easeProgress,
         x := 0, y := 0, w := Option.some width, h := Option.some height },
       { src := TransitionSource.nextImage, alpha := easeProgress,
         x := 0, y := 0, w := Option.some width, h := Option.some height }]
  | SlideTransitionType.slideLeft =>
      [{ src := TransitionSource.prevImage,
         x := -width * easeProgress, y := 0,
         w := Option.some width, h := Option.some height },
       { src := TransitionSource.nextImage,
         x := width * (1 - easeProgress), y := 0,
         w := Option.some width, h := Option.some height }]
  | SlideTransitionType.slideRight =>
      [{ src := TransitionSource.prevImage,
         x := width * easeProgress, y := 0,
         w := Option.some width, h := Option.some height },
       { src := TransitionSource.nextImage,
         x := -width * (1 - easeProgress), y := 0,
         w := Option.some width, h := Option.some height }]
  | SlideTransitionType.slideUp =>
      [{ src := TransitionSource.prevImage,
         x := 0, y := -height * easeProgress,
         w := Option.some width, h := Option.some height },
       { src := TransitionSource.nextImage,
         x := 0, y := height * (1 - easeProgress),
         w := Option.some width, h := Option.some height }]
  | SlideTransitionType.slideDown =>
      [{ src := TransitionSource.prevImage,
         x := 0, y := height * easeProgress,
         w := Option.some width, h := Option.some height },
       { src := TransitionSource.nextImage,
         x := 0, y := -height * (1 - easeProgress),
         w := Option.some width, h := Option.some height }]
  | SlideTransitionType.zoomIn =>
      let scaleIn := 0.5 + 0.5 * easeProgress
      [{ src := TransitionSource.prevImage, alpha := 1 - easeProgress,
         x := 0, y := 0, w := Option.some width, h := Option.some height },
       { src := TransitionSource.nextImage, alpha := easeProgress,
         x := (width - width * scaleIn) / 2, y := (height - height * scaleIn) / 2,
         w := Option.some (width * scaleIn), h := Option.some (height * scaleIn) }]
  | SlideTransitionType.zoomOut =>
      let scaleOut := 1 + 0.5 * easeProgress
      [{ src := TransitionSource.nextImage, alpha := easeProgress,
         x := 0, y := 0, w := Option.some width, h := Option.some height },
       { src := TransitionSource.prevImage, alpha := 1 - easeProgress,
         x := (width - width * scaleOut) / 2, y := (height - height * scaleOut) / 2,
         w := Option.some (width * scaleOut), h := Option.some (height * scaleOut) }]
  | SlideTransitionType.flip =>
      if progress < 0.5 then
        let flipScale := 1 - progress * 2
        [{ src := TransitionSource.prevImage,
           x := (width - width * flipScale) / 2, y := 0,
           w := Option.some (width * flipScale), h := Option.some height }]
      else
        let flipScale := (progress - 0.5) * 2
        [{ src := TransitionSource.nextImage,
           x := (width - width * flipScale) / 2, y := 0,
           w := Option.some (width * flipScale), h := Option.some height }]
  | SlideTransitionType.rotate =>
      [{ src := TransitionSource.prevImage, alpha := 1 - easeProgress,
         tx := width / 2, ty := height / 2, rotPi := -easeProgress,
         ctxScale := 1 - easeProgress * 0.5,
         x := -width / 2, y := -height / 2,
         w := Option.some width, h := Option.some height },
       { src := TransitionSource.nextImage, alpha := easeProgress,
         tx := width / 2, ty := height / 2, rotPi := 1 - easeProgress,
         ctxScale := 0.5 + easeProgress * 0.5,
         x := -width / 2, y := -height / 2,
         w := Option.some width, h := Option.some height }]
  | SlideTransitionType.blur =>
      [{ src := TransitionSource.prevImage, alpha := 1 - easeProgress,
         x := 0, y := 0, w := Option.some width, h := Option.some height },
       { src := TransitionSource.nextImage, alpha := easeProgress,
         x := 0, y := 0, w := Option.some width, h := Option.some height }]
  | SlideTransitionType.dissolve =>
      [{ src := TransitionSource.prevImage, alpha := 1 - easeProgress,
         brightness := 1 + easeProgress,
         x := 0, y := 0, w := Option.some width, h := Option.some height },
       { src := TransitionSource.nextImage, alpha := easeProgress,
         brightness := 2 - easeProgress,
         x := 0, y := 0, w := Option.some width, h := Option.some height }]
  | _ =>
      [{ src := TransitionSource.nextImage,
         x := 0, y := 0, w := Option.some width, h := Option.some height }]

/-- `VideoExportProgress.status`. -/
inductive ProgressStatus where
  | preparing | rendering | encoding | complete | error
deriving DecidableEq

/-- `VideoExportProgress` as passed to the `onProgress` callback. -/
structure VideoExportProgress where
  status : ProgressStatus
  currentSlide : ℕ
  totalSlides : ℕ
  progress : ℤ
  message : String
deriving DecidableEq

/-- The outcome of the promise returned by `exportToVideo`: resolved with
`null`, resolved with the video blob, or rejected (the caller's `await`
throws). -/
inductive ExportResult where
  | resolvedNull
  | resolvedBlob
  | rejected (message : String)
deriving DecidableEq

/-- The external conditions an export job can meet: the slide list, whether
`window.MediaRecorder` exists, the index of the first slide whose
rasterization rejects during pre-rendering (if any), and whether the
recorder fires `onerror` instead of `onstop` when stopped. -/
structure ExportEnv where
  slides : List Slide
  mediaRecorderSupported : Bool
  rasterFailureAt : Option ℕ
  recorderSignalsError : Bool

/-- The `preparing` events of the pre-render loop: one per slide, emitted
BEFORE that slide is pre-rendered. -/
def prepEvents (total upto : ℕ) : List VideoExportProgress :=
  (List.range upto).map fun i =>
    { status := ProgressStatus.preparing, currentSlide := i + 1,
      totalSlides := total, progress := round ((i : ℚ) / (total : ℚ) * 30),
      message := "Preparando slide " ++ toString (i + 1) ++ " de " ++
        toString total ++ "..." }

/-- The `rendering` events of the frame loop: one per slide. -/
def renderEvents (total : ℕ) : List VideoExportProgress :=
  (List.range total).map fun i =>
    { status := ProgressStatus.rendering, currentSlide := i + 1,
      totalSlides := total, progress := 30 + round ((i : ℚ) / (total : ℚ) * 60),
      message := "Renderizando slide " ++ toString (i + 1) ++ " de " ++
        toString total ++ "..." }

/-- The event trace and outcome of `exportToVideo` once pre-rendering has
succeeded: the remaining preparing/rendering/encoding events, then either
the rejected promise (recorder `onerror`) or the blob with its `complete`
event (recorder `onstop`). -/
def exportFinish (total : ℕ) (prep0 : VideoExportProgress)
    (recorderSignalsError : Bool) : ExportResult × List VideoExportProgress :=
  let events := prep0 :: prepEvents total total ++ renderEvents total ++
    [{ status := ProgressStatus.encoding, currentSlide := total,
       totalSlides := total, progress := 90, message := "Finalizando vídeo..." }]
  if recorderSignalsError then
    (ExportResult.rejected "Erro durante a gravação", events)
  else
    (ExportResult.resolvedBlob, events ++
      [{ status := ProgressStatus.complete, currentSlide := total,
         totalSlides := total, progress := 100,
         message := "Exportação concluída!" }])

/-- Control flow of `exportToVideo` (progress callback and returned promise).

The body after the empty-slide guard runs in a `try`: a missing
`MediaRecorder` throws, and a rasterization rejection inside the awaited
pre-render loop propagates; both reach the `catch`, which emits one
`status: 'error'` event and resolves `null` (a non-`Error` rejection
reason, such as a bitmap `onerror` event, yields the message
`'Erro desconhecido'`).

The final `return new Promise(...)` is NOT awaited inside the `try`: the
`return` statement leaves the `try` block before the promise settles, so
when the recorder fires `onerror` the rejection bypasses the `catch` —
the caller's promise rejects, no error event is emitted and `null` is
never returned. -/
def exportToVideo (env : ExportEnv) : ExportResult × List VideoExportProgress :=
  let slides := env.slides
  let total := slides.length
  if total = 0 then
    (ExportResult.resolvedNull,
     [{ status := ProgressStatus.error, currentSlide := 0, totalSlides := 0,
        progress := 0, message := "Nenhum slide para exportar" }])
  else if ¬env.mediaRecorderSupported then
    (ExportResult.resolvedNull,
     [{ status := ProgressStatus.error, currentSlide := 0, totalSlides := total,
        progress := 0, message := "Seu navegador não suporta gravação de vídeo" }])
  else
    let prep0 : VideoExportProgress :=
      { status := ProgressStatus.preparing, currentSlide := 0,
        totalSlides := total, progress := 0,
        message := "Pré-renderizando elementos..." }
    match env.rasterFailureAt with
    | Option.some j =>
        if j < total then
          (ExportResult.resolvedNull,
           prep0 :: prepEvents total (j + 1) ++
           [{ status := ProgressStatus.error, currentSlide := 0,
              totalSlides := total, progress := 0,
              message := "Erro desconhecido" }])
        else
          exportFinish total prep0 env.recorderSignalsError
    | Option.none => exportFinish total prep0 env.recorderSignalsError

/-! ### Concrete fixtures -/

/-- Export options with `fps = 10`. -/
def opts10 : VideoExportOptions := { defaultOptions with fps := 10 }

/-- Slide 1 of the end-to-end scenario: nominal duration 5 s, no transition,
no elements. -/
def slideS1 : Slide :=
  { id := "s1", elements := [], backgroundColor := "#ffffff", duration := 5,
    transition := Option.none }

/-- Slide 2 of the end-to-end scenario: nominal duration 5 s, transition
`{type: 'fade', duration: 1}`, no elements. -/
def slideS2 : Slide :=
  { id := "s2", elements := [], backgroundColor := "#000000", duration := 5,
    transition := Option.some { type := SlideTransitionType.fade, duration := 1 } }

/-- An element with a 10-second `fadeIn` animation, trigger `onClick`,
no delay. -/
def elLongFade : SlideElement :=
  { id := "e-long", position := { x := 0, y := 0, width := 50, height := 50 },
    zIndex := 1, opacity := Option.none, rotationDeg := Option.none,
    animation := Option.some
      { type := AnimationType.fadeIn, duration := Option.some 10,
        delay := Option.none, order := Option.some 1,
        startTrigger := Option.some AnimationTrigger.onClick } }

/-- A slide holding `elLongFade`, duration 5 s, fade transition of 0.5 s. -/
def slideLongAnim : Slide :=
  { id := "s3", elements := [elLongFade], backgroundColor := "#ffffff",
    duration := 5,
    transition := Option.some { type := SlideTransitionType.fade, duration := 0.5 } }

/-- A short element with trigger `afterPrevious`, no delay, order 2. -/
def elAfter : SlideElement :=
  { id := "e-after", position := { x := 0, y := 0, width := 10, height := 10 },
    zIndex := 2, opacity := Option.none, rotationDeg := Option.none,
    animation := Option.some
      { type := AnimationType.fadeIn, duration := Option.some 0.5,
        delay := Option.none, order := Option.some 2,
        startTrigger := Option.some AnimationTrigger.afterPrevious } }

/-- A slide whose first element is a 10-second `onClick` animation and whose
second is `afterPrevious`: probes whether `onClick` advances `lastEnd`. -/
def slideOnClickThenAfter : Slide :=
  { id := "s4", elements := [elLongFade, elAfter], backgroundColor := "#ffffff",
    duration := 5,
    transition := Option.some { type := SlideTransitionType.fade, duration := 0.5 } }

/-- A 2-second element with trigger `afterPrevious`, order 1, no delay. -/
def elAfterFirst : SlideElement :=
  { id := "e-af1", position := { x := 0, y := 0, width := 20, height := 20 },
    zIndex := 1, opacity := Option.none, rotationDeg := Option.none,
    animation := Option.some
      { type := AnimationType.fadeIn, duration := Option.some 2,
        delay := Option.none, order := Option.some 1,
        startTrigger := Option.some AnimationTrigger.afterPrevious } }

/-- A 1-second element with trigger `afterPrevious`, order 2, no delay. -/
def elAfterSecond : SlideElement :=
  { id := "e-af2", position := { x := 10, y := 10, width := 20, height := 20 },
    zIndex := 2, opacity := Option.none, rotationDeg := Option.none,
    animation := Option.some
      { type := AnimationType.zoomIn, duration := Option.some 1,
        delay := Option.none, order := Option.some 2,
        startTrigger := Option.some AnimationTrigger.afterPrevious } }

/-- A slide with two `afterPrevious` elements of strictly increasing order. -/
def slideTwoAfter : Slide :=
  { id := "s5", elements := [elAfterFirst, elAfterSecond],
    backgroundColor := "#ffffff", duration := 5,
    transition := Option.some { type := SlideTransitionType.fade, duration := 0.5 } }

/-- A slide entered through a `flip` transition of 1 s. -/
def slideFlip : Slide :=
  { id := "s6", elements := [], backgroundColor := "#222222", duration := 5,
    transition := Option.some { type := SlideTransitionType.flip, duration := 1 } }

/-- The rendered form of `elAfter` inside `slideOnClickThenAfter`: its
`afterPrevious` start time is `lastEnd = 10.5` s because the preceding
10-second `onClick` animation advanced `lastEnd`. -/
def reAfterRendered : RenderedElement :=
  { element := elAfter, x := 0, y := 0, width := 192, height := 108,
    startTime := 21/2, duration := 1/2, animationType := AnimationType.fadeIn }

/-- The content duration as the claim words it: `maxAnimationEnd` taken
over the animated elements with start times re-measured from the END of
the entrance transition (time 0 = transition end), i.e. using
`startTime - transitionDuration`.  Stated from the claim, for comparison
with `contentDuration`, which uses the resolved slide-local `startTime`
(time 0 = transition start). -/
def contentDurationFromTransitionEnd (slide : RenderedSlide) : ℚ :=
  max (slide.slideDuration - slide.transitionDuration)
    (((slide.elements.filter
        (fun e => decide (e.animationType ≠ AnimationType.none))).map
      (fun e => (e.startTime - slide.transitionDuration) + e.duration)).foldl max 0)

/-- The timeline step as claim C3 words it: identical to `resolveStep`
except that `lastEnd` is advanced ONLY by `afterPrevious` elements
(`onClick` neither reads nor updates it, `withPrevious` does not advance
it).  Stated from the claim, for comparison with `resolveStep`. -/
def resolveStepClaim (transitionDuration : ℚ) (o : VideoExportOptions)
    (st : ℚ × List RenderedElement) (element : SlideElement) :
    ℚ × List RenderedElement :=
  let lastEndTime := st.1
  let elements := st.2
  let trigger := animTrigger element
  let extraDelay := animDelay element
  let duration := animDuration element
  let animationType := animType element
  let startTime : ℚ :=
    if animationType ≠ AnimationType.none then
      match trigger with
      | AnimationTrigger.onClick => transitionDuration + extraDelay
      | AnimationTrigger.withPrevious =>
          match (elements.filter
              (fun e => decide (e.animationType ≠ AnimationType.none))).getLast? with
          | Option.some prev => prev.startTime + extraDelay
          | Option.none => transitionDuration + extraDelay
      | AnimationTrigger.afterPrevious => lastEndTime + extraDelay
    else 0
  let lastEndTime' :=
    if animationType ≠ AnimationType.none ∧
        trigger = AnimationTrigger.afterPrevious then
      max lastEndTime (startTime + duration)
    else lastEndTime
  let re : RenderedElement :=
    { element := element,
      x := element.position.x / 100 * o.width,
      y := element.position.y / 100 * o.height,
      width := element.position.width / 100 * o.width,
      height := element.position.height / 100 * o.height,
      startTime := startTime,
      duration := duration,
      animationType := animationType }
  (lastEndTime', elements ++ [re])

/-- The timeline loop under claim C3's step. -/
def resolveElementsClaim (transitionDuration : ℚ) (o : VideoExportOptions) :
    List SlideElement → ℚ × List RenderedElement → List RenderedElement
  | [], st => st.2
  | el :: rest, st =>
      resolveElementsClaim transitionDuration o rest
        (resolveStepClaim transitionDuration o st el)

/-- `preRenderSlide` under claim C3's step, for comparison. -/
def preRenderSlideClaim (slide : Slide) (o : VideoExportOptions) : RenderedSlide :=
  let transitionDuration := slideTransitionDuration slide
  let sortedElements := sortByOrder slide.elements
  { slide := slide,
    backgroundColor := slide.backgroundColor,
    elements := resolveElementsClaim transitionDuration o sortedElements
      (transitionDuration, []),
    transitionType := (slide.transition.map (fun t => t.type)).getD
      SlideTransitionType.none,
    transitionDuration := transitionDuration,
    slideDuration := orFalsy slide.duration 5,
    fullSnapshot := true }

/-- The start time `resolveStep` hands the element being processed, as a
function of the trigger, the loop state and the transition duration. -/
def resolvedStart (transitionDuration lastEnd : ℚ) (acc : List RenderedElement)
    (el : SlideElement) : ℚ :=
  match animTrigger el with
  | AnimationTrigger.onClick => transitionDuration + animDelay el
  | AnimationTrigger.withPrevious =>
      match (acc.filter
          (fun e => decide (e.animationType ≠ AnimationType.none))).getLast? with
      | Option.some prev => prev.startTime + animDelay el
      | Option.none => transitionDuration + animDelay el
  | AnimationTrigger.afterPrevious => lastEnd + animDelay el

/-- The start time `resolveStep` stores on the element being processed
(`0` for un-animated elements). -/
def stepStartTime (td : ℚ) (st : ℚ × List RenderedElement)
    (el : SlideElement) : ℚ :=
  if animType el ≠ AnimationType.none then resolvedStart td st.1 st.2 el else 0

/-- The rendered element `resolveStep` appends to the accumulator. -/
def stepRendered (td : ℚ) (o : VideoExportOptions)
    (st : ℚ × List RenderedElement) (el : SlideElement) : RenderedElement :=
  { element := el,
    x := el.position.x / 100 * o.width,
    y := el.position.y / 100 * o.height,
    width := el.position.width / 100 * o.width,
    height := el.position.height / 100 * o.height,
    startTime := stepStartTime td st el,
    duration := animDuration el,
    animationType := animType el }

/-- Recognizes a content frame. -/
def isContentFrame : FrameKind → Bool
  | FrameKind.content _ => true
  | FrameKind.transition _ => false

/-- The raw progress of a transition frame, `none` for content frames. -/
def transitionProgressOf : FrameKind → Option ℚ
  | FrameKind.transition q => Option.some q
  | FrameKind.content _ => Option.none

/-- Replace an element's `zIndex` (and nothing else). -/
def mapZIndex (g : ℤ → ℤ) (el : SlideElement) : SlideElement :=
  { el with zIndex := g el.zIndex }

/-- Replace every element's `zIndex` in a slide. -/
def mapSlideZIndex (g : ℤ → ℤ) (s : Slide) : Slide :=
  { s with elements := s.elements.map (mapZIndex g) }

/-- Replace the source element's `zIndex` inside a rendered element. -/
def mapRenderedZIndex (g : ℤ → ℤ) (re : RenderedElement) : RenderedElement :=
  { re with element := mapZIndex g re.element }

/-- An export environment whose recorder reports a failure when stopped,
with everything before that healthy. -/
def envRecorderError : ExportEnv :=
  { slides := [slideS1], mediaRecorderSupported := true,
    rasterFailureAt := Option.none, recorderSignalsError := true }

/-- An export environment with no slides. -/
def envNoSlides : ExportEnv :=
  { slides := [], mediaRecorderSupported := true,
    rasterFailureAt := Option.none, recorderSignalsError := false }

/-- An export environment without `MediaRecorder`. -/
def envNoRecorder : ExportEnv :=
  { slides := [slideS1], mediaRecorderSupported := false,
    rasterFailureAt := Option.none, recorderSignalsError := false }

/-- An export environment whose first slide fails to rasterize. -/
def envRasterFailure : ExportEnv :=
  { slides := [slideS1, slideS2], mediaRecorderSupported := true,
    rasterFailureAt := Option.some 0, recorderSignalsError := false }

/-- Counts the `status: 'error'` events of a progress trace. -/
def countErrorEvents (events : List VideoExportProgress) : ℕ :=
  events.countP (fun e => decide (e.status = ProgressStatus.error))

/-! ### C1 — end-to-end frame count of the two-slide scenario -/

/-- C1 (counterexample): for the spec's end-to-end scenario (`fps = 10`, two
slides of nominal duration 5 s, slide 2 with `{type: 'fade', duration: 1}`,
slide 1 without transition) the scheduler emits 95 frames, not the claimed
100: slide 1's content duration is `5 - 0.5 = 4.5` s because
`slide.transition?.duration || 0.5` defaults to 0.5 even for a slide with no
transition, and that default is subtracted from the slide duration. -/
theorem exportVideoFrames_two_slides_95_not_100 :
    (exportVideoFrames opts10 [slideS1, slideS2]).length = 95 ∧
    (exportVideoFrames opts10 [slideS1, slideS2]).length ≠ 100 := by
  constructor
  · with_unfolding_all decide
  · with_unfolding_all decide

/-- C1 (amended): in the end-to-end scenario the schedule is exactly 45
content frames for slide 1 (content duration `5 − 0.5` s at the 0.5 s
default transition duration, times stepping by `1/fps` from `0.5`), then 10
transition frames at raw progress `f/10`, then 40 content frames for slide 2
(content duration `5 − 1` s, times stepping from `1`); each segment of
length `d` seconds contributes `ceil(d × fps)` frames, for 95 frames in
total. -/
theorem exportVideoFrames_two_slides_segments :
    exportVideoFrames opts10 [slideS1, slideS2] =
      ((List.range 45).map fun f => FrameKind.content (1/2 + (f : ℚ) / 10)) ++
      ((List.range 10).map fun f => FrameKind.transition ((f : ℚ) / 10)) ++
      ((List.range 40).map fun f => FrameKind.content (1 + (f : ℚ) / 10)) := by
  with_unfolding_all decide

/-! ### C2 — content duration and the frame of reference of `maxAnimationEnd` -/

/-- C2 (counterexample): for a slide of duration 5 s, fade transition 0.5 s
and one 10-second `onClick` animation, the code's content duration is
10.5 s — `getMaxAnimationEnd` uses the resolved `startTime`, measured from
the START of the transition — while the claim's formula, with
`startTime + duration` measured from the END of the transition (time 0 =
transition end), gives 10 s.  The content portion thus over-extends by the
transition duration relative to the claim. -/
theorem contentDuration_not_from_transition_end_cex :
    contentDuration (preRenderSlide slideLongAnim defaultOptions) = 21/2 ∧
    contentDurationFromTransitionEnd (preRenderSlide slideLongAnim defaultOptions)
      = 10 ∧
    ((21 : ℚ)/2 ≠ 10) := by
  refine ⟨?_, ?_, ?_⟩ <;> with_unfolding_all decide

/-- Auxiliary: `(if a < b then b else a) = max a b`. -/
theorem if_lt_eq_max (a b : ℚ) : (if a < b then b else a) = max a b := by
  rcases lt_or_le a b with h | h
  · rw [if_pos h, max_eq_right h.le]
  · rw [if_neg (not_lt.mpr h), max_eq_left h]

/-- Auxiliary: a two-arm option match is `getD` of `map`. -/
theorem option_match_map_getD {α β : Type} (o : Option α) (f : α → β) (d : β) :
    (match o with | Option.some a => f a | Option.none => d) = (o.map f).getD d := by
  cases o <;> rfl

/-- Auxiliary: the code's `getMaxAnimationEnd` fold equals the maximum of
`startTime + duration` over the animated elements (from any initial
accumulator). -/
theorem getMaxAnimationEnd_foldl (l : List RenderedElement) : ∀ init : ℚ,
    l.foldl
      (fun m el =>
        if el.animationType ≠ AnimationType.none then
          if el.startTime + el.duration > m then el.startTime + el.duration else m
        else m) init =
    ((l.filter (fun e => decide (e.animationType ≠ AnimationType.none))).map
      (fun e => e.startTime + e.duration)).foldl max init := by
  induction l with
  | nil => intro init; rfl
  | cons x xs ih =>
      intro init
      by_cases hx : x.animationType ≠ AnimationType.none
      · rw [List.foldl_cons, if_pos hx, if_lt_eq_max, ih,
          List.filter_cons_of_pos (by simpa using hx), List.map_cons,
          List.foldl_cons]
      · rw [List.foldl_cons, if_neg hx, ih,
          List.filter_cons_of_neg (by simpa using hx)]

/-- C2 (amended): for every rendered slide, previous-slide option and frame
rate, the number of content frames emitted is
`ceil(max(slideDuration − transitionDuration, maxAnimationEnd) × fps)`,
where `maxAnimationEnd` is the maximum over the slide's animated elements
of `startTime + duration` with `startTime` in the slide-local timeline
whose origin is the START of the entrance transition — so an animation
chain longer than the nominal slide duration extends the slide rather than
being clipped, and when animations dominate the content portion
over-extends by `transitionDuration`. -/
theorem contentFrames_count_max_formula (fps : ℚ) (prev : Option RenderedSlide)
    (rs : RenderedSlide) :
    ((slideFrames fps prev rs).countP isContentFrame) =
    ceilFrames ((max (rs.slideDuration - rs.transitionDuration)
      (((rs.elements.filter
          (fun e => decide (e.animationType ≠ AnimationType.none))).map
        (fun e => e.startTime + e.duration)).foldl max 0)) * fps) := by
  have hmax : getMaxAnimationEnd rs =
      ((rs.elements.filter
          (fun e => decide (e.animationType ≠ AnimationType.none))).map
        (fun e => e.startTime + e.duration)).foldl max 0 :=
    getMaxAnimationEnd_foldl rs.elements 0
  have h1 : ∀ (n : ℕ) (f : ℕ → ℚ),
      (((List.range n).map fun k => FrameKind.transition (f k)).countP
        isContentFrame) = 0 := by
    intro n f
    rw [List.countP_map]
    simp [Function.comp_def, isContentFrame]
  have h2 : ∀ (n : ℕ) (f : ℕ → ℚ),
      (((List.range n).map fun k => FrameKind.content (f k)).countP
        isContentFrame) = n := by
    intro n f
    rw [List.countP_map]
    simp [Function.comp_def, isContentFrame]
  rw [slideFrames, List.countP_append]
  rcases Decidable.em
      (prev.isSome ∧ rs.transitionType ≠ SlideTransitionType.none) with h | h
  · rw [if_pos h, h1, h2, Nat.zero_add, contentDuration, hmax]
  · rw [if_neg h, List.countP_nil, h2, Nat.zero_add, contentDuration, hmax]

/-! ### C3 — trigger semantics of the timeline walk -/

/-- C3 (counterexample): on a slide whose first element is a 10-second
`onClick` animation and whose second is `afterPrevious` with no delay
(transition 0.5 s), the code resolves start times `[0.5, 10.5]` — the
`onClick` element advanced `lastEnd` to 10.5 — while the claim's rule
(`onClick` neither reads nor updates `lastEnd`; only `afterPrevious`
advances it) would resolve `[0.5, 0.5]`. -/
theorem resolve_onClick_advances_lastEnd_cex :
    ((preRenderSlide slideOnClickThenAfter defaultOptions).elements.map
      (fun re => re.startTime)) = [1/2, 21/2] ∧
    ((preRenderSlideClaim slideOnClickThenAfter defaultOptions).elements.map
      (fun re => re.startTime)) = [1/2, 1/2] ∧
    ((21 : ℚ)/2 ≠ 1/2) := by
  refine ⟨?_, ?_, ?_⟩ <;> with_unfolding_all decide

/-- C3 (amended): for every animated element processed by the timeline
walk, the resolved start time is `transitionDuration + delay` for
`onClick` (independent of `lastEnd`), and the most recently resolved
animated element's start time plus `delay` for `withPrevious`
(`transitionDuration + delay` when there is none); but EVERY animated
element — whatever its trigger — advances `lastEnd` to
`max(lastEnd, startTime + duration)`, not only `afterPrevious` ones. -/
theorem resolveStep_trigger_semantics (td : ℚ) (o : VideoExportOptions)
    (lastEnd : ℚ) (acc : List RenderedElement) (el : SlideElement)
    (h : animType el ≠ AnimationType.none) :
    ((resolveStep td o (lastEnd, acc) el).2.getLast?.map
      (fun re => re.startTime)) = Option.some (resolvedStart td lastEnd acc el) ∧
    (animTrigger el = AnimationTrigger.onClick →
      resolvedStart td lastEnd acc el = td + animDelay el) ∧
    (animTrigger el = AnimationTrigger.withPrevious →
      resolvedStart td lastEnd acc el =
        ((acc.filter
            (fun e => decide (e.animationType ≠ AnimationType.none))).getLast?.map
          (fun prev => prev.startTime + animDelay el)).getD (td + animDelay el)) ∧
    (resolveStep td o (lastEnd, acc) el).1 =
      max lastEnd (resolvedStart td lastEnd acc el + animDuration el) := by
  refine ⟨?_, ?_, ?_, ?_⟩
  · simp only [resolveStep, List.getLast?_concat, if_pos h]
    rw [resolvedStart]
    rfl
  · intro ht
    rw [resolvedStart, ht]
  · intro ht
    rw [resolvedStart, ht]
    show (match (acc.filter
        (fun e => decide (e.animationType ≠ AnimationType.none))).getLast? with
      | Option.some prev => prev.startTime + animDelay el
      | Option.none => td + animDelay el) = _
    generalize (acc.filter
        (fun e => decide (e.animationType ≠ AnimationType.none))).getLast? = ob
    rcases ob with _ | prev <;> rfl
  · simp only [resolveStep, if_pos h]
    rw [resolvedStart]

/-- C3 (witness): the amended trigger semantics instantiated at the
10-second `onClick` element with an empty accumulator. -/
theorem resolveStep_trigger_semantics_witness :
    ((resolveStep (1/2) defaultOptions ((1/2 : ℚ), []) elLongFade).2.getLast?.map
      (fun re => re.startTime)) =
        Option.some (resolvedStart (1/2) (1/2) [] elLongFade) ∧
    (animTrigger elLongFade = AnimationTrigger.onClick →
      resolvedStart (1/2) (1/2) [] elLongFade = 1/2 + animDelay elLongFade) ∧
    (animTrigger elLongFade = AnimationTrigger.withPrevious →
      resolvedStart (1/2) (1/2) [] elLongFade =
        ((([] : List RenderedElement).filter
            (fun e => decide (e.animationType ≠ AnimationType.none))).getLast?.map
          (fun prev => prev.startTime + animDelay elLongFade)).getD
            (1/2 + animDelay elLongFade)) ∧
    (resolveStep (1/2) defaultOptions ((1/2 : ℚ), []) elLongFade).1 =
      max (1/2) (resolvedStart (1/2) (1/2) [] elLongFade + animDuration elLongFade) :=
  resolveStep_trigger_semantics (1/2) defaultOptions (1/2) [] elLongFade
    (by with_unfolding_all decide)

/-! ### C5 — error surfacing of the export job -/

/-- C5: three of the four failure classes behave as specified — an empty
slide list, a missing recorder and a rasterization failure each produce
exactly one `status: 'error'` progress event and resolve `null` — but an
encoder-reported failure does not: because the final `return new
Promise(...)` is not awaited inside the `try`, the recorder's `onerror`
rejection bypasses the `catch`, so the job emits NO error event and the
returned promise rejects instead of resolving `null`. -/
theorem exportToVideo_error_paths :
    ((exportToVideo envNoSlides).1 = ExportResult.resolvedNull ∧
      countErrorEvents (exportToVideo envNoSlides).2 = 1) ∧
    ((exportToVideo envNoRecorder).1 = ExportResult.resolvedNull ∧
      countErrorEvents (exportToVideo envNoRecorder).2 = 1) ∧
    ((exportToVideo envRasterFailure).1 = ExportResult.resolvedNull ∧
      countErrorEvents (exportToVideo envRasterFailure).2 = 1) ∧
    ((exportToVideo envRecorderError).1 =
        ExportResult.rejected "Erro durante a gravação" ∧
      countErrorEvents (exportToVideo envRecorderError).2 = 0 ∧
      (exportToVideo envRecorderError).1 ≠ ExportResult.resolvedNull) := by
  refine ⟨⟨?_, ?_⟩, ⟨?_, ?_⟩, ⟨?_, ?_⟩, ⟨?_, ?_, ?_⟩⟩ <;>
    with_unfolding_all decide

/-! ### C6 — evaluator endpoints -/

/-- C6: for every animation type (and any element size), the evaluator at
progress 1 returns the rest state `{opacity: 1, translateX: 0,
translateY: 0, scale: 1, rotation: 0}`, and at progress 0 it returns the
rest state for the continuous effects `pulse`, `shake` and `swing` and a
fully-hidden extreme (`opacity = 0`) for every other type. -/
theorem getAnimationState_endpoints (t : AnimationType) (w h : ℚ) :
    getAnimationState t 1 w h = restState ∧
    (if t = AnimationType.pulse ∨ t = AnimationType.shake ∨
        t = AnimationType.swing then
      getAnimationState t 0 w h = restState
    else (getAnimationState t 0 w h).opacity = 0) := by
  cases t <;> refine ⟨?_, ?_⟩ <;>
    norm_num [getAnimationState, restState] <;> decide

/-! ### Structural lemmas about the timeline walk -/

/-- `resolveStep` in closed form: the state advances to
`max lastEnd (startTime + duration)` exactly when the element is animated,
and the rendered element is appended to the accumulator. -/
theorem resolveStep_eq (td : ℚ) (o : VideoExportOptions)
    (st : ℚ × List RenderedElement) (el : SlideElement) :
    resolveStep td o st el =
      (if animType el ≠ AnimationType.none then
        max st.1 (stepStartTime td st el + animDuration el)
      else st.1,
      st.2 ++ [stepRendered td o st el]) := by
  by_cases h : animType el = AnimationType.none
  · simp [resolveStep, stepRendered, stepStartTime, h]
  · simp [resolveStep, stepRendered, stepStartTime, resolvedStart, h]

/-- The timeline walk appends one rendered element per input element, in
input order. -/
theorem resolveElements_map_element (td : ℚ) (o : VideoExportOptions) :
    ∀ (l : List SlideElement) (st : ℚ × List RenderedElement),
      (resolveElements td o l st).map (fun re => re.element) =
        st.2.map (fun re => re.element) ++ l := by
  intro l
  induction l with
  | nil => intro st; simp [resolveElements]
  | cons el rest ih =>
      intro st
      rw [resolveElements, ih, resolveStep_eq]
      simp [stepRendered]

/-- The stable insertion is a permutation. -/
theorem insertByOrder_perm (x : SlideElement) (l : List SlideElement) :
    List.Perm (insertByOrder x l) (x :: l) := by
  induction l with
  | nil => exact List.Perm.refl _
  | cons y ys ih =>
      rw [insertByOrder]
      by_cases h : animOrder x ≤ animOrder y
      · rw [if_pos h]
      · rw [if_neg h]
        exact (ih.cons y).trans (List.Perm.swap x y ys)

/-- The stable sort is a permutation of its input. -/
theorem sortByOrder_perm (l : List SlideElement) :
    List.Perm (sortByOrder l) l := by
  induction l with
  | nil => exact List.Perm.refl _
  | cons x xs ih =>
      rw [sortByOrder]
      exact (insertByOrder_perm x (sortByOrder xs)).trans (ih.cons x)

/-- Sorting preserves membership. -/
theorem mem_sortByOrder {a : SlideElement} {l : List SlideElement} :
    a ∈ sortByOrder l ↔ a ∈ l :=
  (sortByOrder_perm l).mem_iff

/-- A list already sorted on `animation.order` is left unchanged by the
stable sort (so `order` ties keep the original element order). -/
theorem sortByOrder_eq_self {l : List SlideElement}
    (h : l.Pairwise (fun a b => animOrder a ≤ animOrder b)) :
    sortByOrder l = l := by
  induction l with
  | nil => rfl
  | cons x xs ih =>
      rw [sortByOrder, ih h.of_cons]
      rcases xs with _ | ⟨y, ys⟩
      · rfl
      · rw [insertByOrder,
          if_pos (List.rel_of_pairwise_cons h (List.mem_cons_self _ _))]

/-! ### C7 — animated content never precedes the end of the transition -/

/-- Invariant of the timeline walk: if the running `lastEnd` is at least
`transitionDuration`, all already-resolved animated elements start no
earlier than `transitionDuration`, all un-animated ones at `0`, and the
remaining delays are non-negative, the same holds of every element the
walk produces. -/
theorem resolveElements_startTime_bound (td : ℚ) (o : VideoExportOptions) :
    ∀ (l : List SlideElement) (st : ℚ × List RenderedElement),
      td ≤ st.1 →
      (∀ re ∈ st.2,
        (re.animationType ≠ AnimationType.none → td ≤ re.startTime) ∧
        (re.animationType = AnimationType.none → re.startTime = 0)) →
      (∀ el ∈ l, 0 ≤ animDelay el) →
      ∀ re ∈ resolveElements td o l st,
        (re.animationType ≠ AnimationType.none → td ≤ re.startTime) ∧
        (re.animationType = AnimationType.none → re.startTime = 0) := by
  intro l
  induction l with
  | nil => intro st h1 h2 _ re hre; exact h2 re hre
  | cons el rest ih =>
      intro st h1 h2 h3 re hre
      rw [resolveElements, resolveStep_eq] at hre
      have hdel : 0 ≤ animDelay el := h3 el (List.mem_cons_self _ _)
      refine ih _ ?_ ?_ (fun e he => h3 e (List.mem_cons_of_mem el he)) re hre
      · show td ≤ (if animType el ≠ AnimationType.none then
          max st.1 (stepStartTime td st el + animDuration el) else st.1)
        by_cases h : animType el ≠ AnimationType.none
        · rw [if_pos h]
          exact le_trans h1 (le_max_left _ _)
        · rw [if_neg h]
          exact h1
      · intro e he
        rcases List.mem_append.mp he with hin | hnew
        · exact h2 e hin
        · rw [List.mem_singleton] at hnew
          subst hnew
          by_cases h : animType el = AnimationType.none
          · refine ⟨fun hty => absurd h ?_, fun _ => ?_⟩
            · simpa [stepRendered] using hty
            · show stepStartTime td st el = 0
              rw [stepStartTime, if_neg (by simpa using h)]
          · refine ⟨fun _ => ?_, fun hty => absurd (?_ : animType el =
              AnimationType.none) h⟩
            · show td ≤ stepStartTime td st el
              rw [stepStartTime, if_pos (by simpa using h), resolvedStart]
              cases htr : animTrigger el with
              | onClick =>
                  show td ≤ td + animDelay el
                  exact le_add_of_nonneg_right hdel
              | withPrevious =>
                  show td ≤ (match (st.2.filter (fun e =>
                      decide (e.animationType ≠ AnimationType.none))).getLast? with
                    | Option.some prev => prev.startTime + animDelay el
                    | Option.none => td + animDelay el)
                  generalize hf : (st.2.filter (fun e =>
                      decide (e.animationType ≠ AnimationType.none))).getLast? = ob
                  rcases ob with _ | prev
                  · show td ≤ td + animDelay el
                    exact le_add_of_nonneg_right hdel
                  · show td ≤ prev.startTime + animDelay el
                    have hmem := List.mem_of_getLast?_eq_some hf
                    rw [List.mem_filter] at hmem
                    have hty : prev.animationType ≠ AnimationType.none := by
                      simpa using hmem.2
                    exact le_add_of_le_of_nonneg ((h2 prev hmem.1).1 hty) hdel
              | afterPrevious =>
                  show td ≤ st.1 + animDelay el
                  exact le_add_of_le_of_nonneg h1 hdel
            · simpa [stepRendered] using hty

/-- C7: on any slide whose configured animation delays are non-negative,
every animated element resolves to a start time of at least the slide's
transition duration, and every element with animation type `none` resolves
to start time `0`. -/
theorem preRenderSlide_startTimes (slide : Slide) (o : VideoExportOptions)
    (re : RenderedElement)
    (hre : re ∈ (preRenderSlide slide o).elements)
    (hdel : ∀ el ∈ slide.elements, 0 ≤ animDelay el) :
    (re.animationType ≠ AnimationType.none →
      (preRenderSlide slide o).transitionDuration ≤ re.startTime) ∧
    (re.animationType = AnimationType.none → re.startTime = 0) := by
  refine resolveElements_startTime_bound (slideTransitionDuration slide) o
    (sortByOrder slide.elements) (slideTransitionDuration slide, []) le_rfl
    (by intro e he; exact absurd he (List.not_mem_nil e)) ?_ re hre
  intro el hel
  exact hdel el (mem_sortByOrder.mp hel)

/-- C7 (witness): on the `onClick`-then-`afterPrevious` slide, the second
element (animated, resolved at 10.5 s) starts no earlier than the 0.5 s
transition. -/
theorem preRenderSlide_startTimes_witness :
    (reAfterRendered.animationType ≠ AnimationType.none →
      (preRenderSlide slideOnClickThenAfter defaultOptions).transitionDuration ≤
        reAfterRendered.startTime) ∧
    (reAfterRendered.animationType = AnimationType.none →
      reAfterRendered.startTime = 0) :=
  preRenderSlide_startTimes slideOnClickThenAfter defaultOptions reAfterRendered
    (by with_unfolding_all decide)
    (by
      intro el hel
      fin_cases hel <;> with_unfolding_all decide)

/-! ### C8 — `afterPrevious` chains are sequential -/

/-- Invariant of the timeline walk on all-`afterPrevious`, zero-delay
input: when the accumulator is already chained (each element starts no
earlier than its predecessor's end) and its last element ends no later
than the running `lastEnd`, the produced list is chained. -/
theorem resolveElements_afterPrevious_chain (td : ℚ) (o : VideoExportOptions) :
    ∀ (l : List SlideElement) (st : ℚ × List RenderedElement),
      (∀ el ∈ l, animType el ≠ AnimationType.none ∧
        animTrigger el = AnimationTrigger.afterPrevious ∧ animDelay el = 0) →
      List.Chain' (fun a b => a.startTime + a.duration ≤ b.startTime) st.2 →
      (∀ re, st.2.getLast? = Option.some re →
        re.startTime + re.duration ≤ st.1) →
      List.Chain' (fun a b => a.startTime + a.duration ≤ b.startTime)
        (resolveElements td o l st) := by
  intro l
  induction l with
  | nil => intro st _ hc _; exact hc
  | cons el rest ih =>
      intro st hall hc hb
      rw [resolveElements, resolveStep_eq]
      have h1 := (hall el (List.mem_cons_self _ _)).1
      have h2 := (hall el (List.mem_cons_self _ _)).2.1
      have h3 := (hall el (List.mem_cons_self _ _)).2.2
      have hst : stepStartTime td st el = st.1 := by
        rw [stepStartTime, if_pos h1, resolvedStart, h2]
        show st.1 + animDelay el = st.1
        rw [h3, add_zero]
      refine ih _ (fun e he => hall e (List.mem_cons_of_mem el he)) ?_ ?_
      · refine List.Chain'.append hc (List.chain'_singleton _) ?_
        intro x hx y hy
        have hx' : st.2.getLast? = Option.some x := hx
        have hy' : stepRendered td o st el = y := by
          simpa using hy
        subst hy'
        show x.startTime + x.duration ≤ (stepRendered td o st el).startTime
        rw [stepRendered]
        show x.startTime + x.duration ≤ stepStartTime td st el
        rw [hst]
        exact hb x hx'
      · intro re hre
        rw [List.getLast?_concat, Option.some.injEq] at hre
        subst hre
        show (stepRendered td o st el).startTime +
            (stepRendered td o st el).duration ≤ _
        rw [if_pos h1, stepRendered]
        exact le_max_right _ _

/-- C8: on a slide whose elements all have an animation with trigger
`afterPrevious`, zero delay and non-decreasing `order` (in particular
strictly increasing `order`), the resolved timeline is sequential:
each rendered element's start time is at least the previous element's
start time plus its duration, and the rendered elements are exactly the
slide's elements in order. -/
theorem preRenderSlide_afterPrevious_chain (slide : Slide)
    (o : VideoExportOptions)
    (hord : List.Chain' (fun a b => animOrder a < animOrder b) slide.elements)
    (hall : ∀ el ∈ slide.elements, animType el ≠ AnimationType.none ∧
      animTrigger el = AnimationTrigger.afterPrevious ∧ animDelay el = 0) :
    List.Chain' (fun a b => a.startTime + a.duration ≤ b.startTime)
      (preRenderSlide slide o).elements ∧
    (preRenderSlide slide o).elements.map (fun re => re.element) =
      slide.elements := by
  haveI : IsTrans SlideElement (fun a b => animOrder a < animOrder b) :=
    ⟨fun _ _ _ hab hbc => lt_trans hab hbc⟩
  have hpair : slide.elements.Pairwise (fun a b => animOrder a ≤ animOrder b) :=
    (List.chain'_iff_pairwise.mp hord).imp (fun h => le_of_lt h)
  have hsort : sortByOrder slide.elements = slide.elements :=
    sortByOrder_eq_self hpair
  constructor
  · show List.Chain' _ (resolveElements (slideTransitionDuration slide) o
      (sortByOrder slide.elements) (slideTransitionDuration slide, []))
    rw [hsort]
    refine resolveElements_afterPrevious_chain _ o slide.elements _ hall
      List.chain'_nil ?_
    intro re hre
    simp at hre
  · show (resolveElements (slideTransitionDuration slide) o
      (sortByOrder slide.elements)
      (slideTransitionDuration slide, [])).map (fun re => re.element) = _
    rw [resolveElements_map_element, hsort]
    rfl

/-- C8 (witness): the chain property on the concrete two-element
`afterPrevious` slide. -/
theorem preRenderSlide_afterPrevious_chain_witness :
    List.Chain' (fun a b => a.startTime + a.duration ≤ b.startTime)
      (preRenderSlide slideTwoAfter defaultOptions).elements ∧
    (preRenderSlide slideTwoAfter defaultOptions).elements.map
      (fun re => re.element) = slideTwoAfter.elements :=
  preRenderSlide_afterPrevious_chain slideTwoAfter defaultOptions
    (by
      show List.Chain' (fun a b => animOrder a < animOrder b)
        [elAfterFirst, elAfterSecond]
      rw [List.chain'_cons]
      exact ⟨by with_unfolding_all decide, List.chain'_singleton _⟩)
    (by
      intro el hel
      fin_cases hel <;> with_unfolding_all decide)

/-! ### C9 — paint order follows the animation-order sort, never `zIndex` -/

/-- Changing `zIndex` changes none of the animation reads. -/
theorem animOrder_mapZIndex (g : ℤ → ℤ) (el : SlideElement) :
    animOrder (mapZIndex g el) = animOrder el := rfl

/-- Changing `zIndex` changes none of the animation reads. -/
theorem animType_mapZIndex (g : ℤ → ℤ) (el : SlideElement) :
    animType (mapZIndex g el) = animType el := rfl

/-- Changing `zIndex` changes none of the animation reads. -/
theorem animTrigger_mapZIndex (g : ℤ → ℤ) (el : SlideElement) :
    animTrigger (mapZIndex g el) = animTrigger el := rfl

/-- Changing `zIndex` changes none of the animation reads. -/
theorem animDelay_mapZIndex (g : ℤ → ℤ) (el : SlideElement) :
    animDelay (mapZIndex g el) = animDelay el := rfl

/-- Changing `zIndex` changes none of the animation reads. -/
theorem animDuration_mapZIndex (g : ℤ → ℤ) (el : SlideElement) :
    animDuration (mapZIndex g el) = animDuration el := rfl

/-- The stable insertion commutes with a `zIndex` change. -/
theorem insertByOrder_map_zIndex (g : ℤ → ℤ) (x : SlideElement) :
    ∀ l : List SlideElement,
      insertByOrder (mapZIndex g x) (l.map (mapZIndex g)) =
        (insertByOrder x l).map (mapZIndex g) := by
  intro l
  induction l with
  | nil => rfl
  | cons y ys ih =>
      rw [List.map_cons, insertByOrder, insertByOrder, animOrder_mapZIndex,
        animOrder_mapZIndex]
      by_cases h : animOrder x ≤ animOrder y
      · rw [if_pos h, if_pos h, List.map_cons, List.map_cons]
      · rw [if_neg h, if_neg h, List.map_cons, ih]

/-- The stable sort commutes with a `zIndex` change. -/
theorem sortByOrder_map_zIndex (g : ℤ → ℤ) :
    ∀ l : List SlideElement,
      sortByOrder (l.map (mapZIndex g)) = (sortByOrder l).map (mapZIndex g) := by
  intro l
  induction l with
  | nil => rfl
  | cons x xs ih =>
      rw [List.map_cons, sortByOrder, sortByOrder, ih, insertByOrder_map_zIndex]

/-- The resolved start time ignores `zIndex`. -/
theorem resolvedStart_map_zIndex (g : ℤ → ℤ) (td lastEnd : ℚ)
    (acc : List RenderedElement) (el : SlideElement) :
    resolvedStart td lastEnd (acc.map (mapRenderedZIndex g)) (mapZIndex g el) =
      resolvedStart td lastEnd acc el := by
  rw [resolvedStart, resolvedStart, animTrigger_mapZIndex, animDelay_mapZIndex]
  cases animTrigger el with
  | onClick => rfl
  | afterPrevious => rfl
  | withPrevious =>
      show (match ((acc.map (mapRenderedZIndex g)).filter (fun e =>
          decide (e.animationType ≠ AnimationType.none))).getLast? with
        | Option.some prev => prev.startTime + animDelay el
        | Option.none => td + animDelay el) = _
      have hfil : (acc.map (mapRenderedZIndex g)).filter (fun e =>
          decide (e.animationType ≠ AnimationType.none)) =
          (acc.filter (fun e =>
            decide (e.animationType ≠ AnimationType.none))).map
            (mapRenderedZIndex g) := by
        rw [List.filter_map]
        rfl
      rw [hfil, List.getLast?_map]
      generalize (acc.filter (fun e =>
        decide (e.animationType ≠ AnimationType.none))).getLast? = ob
      rcases ob with _ | prev <;> rfl

/-- The per-element step ignores `zIndex` except for carrying it along. -/
theorem resolveStep_map_zIndex (g : ℤ → ℤ) (td : ℚ) (o : VideoExportOptions)
    (lastEnd : ℚ) (acc : List RenderedElement) (el : SlideElement) :
    resolveStep td o (lastEnd, acc.map (mapRenderedZIndex g)) (mapZIndex g el) =
      ((resolveStep td o (lastEnd, acc) el).1,
       (resolveStep td o (lastEnd, acc) el).2.map (mapRenderedZIndex g)) := by
  have hss : stepStartTime td (lastEnd, acc.map (mapRenderedZIndex g))
      (mapZIndex g el) = stepStartTime td (lastEnd, acc) el := by
    rw [stepStartTime, stepStartTime, animType_mapZIndex]
    by_cases h : animType el ≠ AnimationType.none
    · rw [if_pos h, if_pos h]
      exact resolvedStart_map_zIndex g td lastEnd acc el
    · rw [if_neg h, if_neg h]
  rw [resolveStep_eq, resolveStep_eq, animType_mapZIndex, animDuration_mapZIndex,
    hss, List.map_append]
  have hre : stepRendered td o (lastEnd, acc.map (mapRenderedZIndex g))
      (mapZIndex g el) =
      mapRenderedZIndex g (stepRendered td o (lastEnd, acc) el) := by
    rw [stepRendered, stepRendered, mapRenderedZIndex]
    simp only [hss, animDuration_mapZIndex, animType_mapZIndex]
    rfl
  rw [hre]
  rfl

/-- The timeline walk ignores `zIndex` except for carrying it along. -/
theorem resolveElements_map_zIndex (g : ℤ → ℤ) (td : ℚ)
    (o : VideoExportOptions) :
    ∀ (l : List SlideElement) (lastEnd : ℚ) (acc : List RenderedElement),
      resolveElements td o (l.map (mapZIndex g))
        (lastEnd, acc.map (mapRenderedZIndex g)) =
        (resolveElements td o l (lastEnd, acc)).map (mapRenderedZIndex g) := by
  intro l
  induction l with
  | nil => intro lastEnd acc; rfl
  | cons el rest ih =>
      intro lastEnd acc
      rw [List.map_cons, resolveElements, resolveElements,
        resolveStep_map_zIndex]
      have h := ih (resolveStep td o (lastEnd, acc) el).1
        (resolveStep td o (lastEnd, acc) el).2
      rw [Prod.mk.eta] at h
      exact h

/-- Pre-rendering a slide with every `zIndex` replaced resolves the same
geometry and timeline; only the carried source elements differ in their
`zIndex`. -/
theorem preRenderSlide_map_zIndex (slide : Slide) (o : VideoExportOptions)
    (g : ℤ → ℤ) :
    (preRenderSlide (mapSlideZIndex g slide) o).elements =
      (preRenderSlide slide o).elements.map (mapRenderedZIndex g) := by
  show resolveElements (slideTransitionDuration (mapSlideZIndex g slide)) o
    (sortByOrder (slide.elements.map (mapZIndex g)))
    (slideTransitionDuration (mapSlideZIndex g slide), []) = _
  have htd : slideTransitionDuration (mapSlideZIndex g slide) =
      slideTransitionDuration slide := rfl
  rw [htd, sortByOrder_map_zIndex]
  exact resolveElements_map_zIndex g (slideTransitionDuration slide) o
    (sortByOrder slide.elements) (slideTransitionDuration slide) []

/-- An element's draw op ignores `zIndex`. -/
theorem drawElement_map_zIndex (t : ℚ) (g : ℤ → ℤ) (re : RenderedElement) :
    drawElement t (mapRenderedZIndex g re) = drawElement t re := rfl

/-- Generic shape of `renderSlideFrame`'s per-element guard: a `filterMap`
of guarded `some`s is a `filter` followed by a `map`. -/
theorem filterMap_guard {α β : Type} (p : α → Prop) [DecidablePred p]
    (f : α → β) :
    ∀ l : List α,
      (l.filterMap fun a => if p a then Option.none else Option.some (f a)) =
        (l.filter fun a => decide (¬ p a)).map f := by
  intro l
  induction l with
  | nil => rfl
  | cons x xs ih =>
      by_cases h : p x
      · rw [List.filterMap_cons, if_pos h,
          List.filter_cons_of_neg (by simpa using h), ih]
      · rw [List.filterMap_cons, if_neg h,
          List.filter_cons_of_pos (by simpa using h), List.map_cons, ih]

/-- C9: in every content frame, the elements are painted in exactly the
sequence produced by `preRenderSlide`'s stable sort on `animation.order`
(restricted to the elements visible at the frame's time), and the
compositor never reads `zIndex`: replacing every element's `zIndex` by an
arbitrary function of it leaves each rendered frame unchanged. -/
theorem renderSlideFrame_order_and_zIndex (slide : Slide)
    (o : VideoExportOptions) (t : ℚ) (g : ℤ → ℤ) :
    renderSlideFrame (preRenderSlide (mapSlideZIndex g slide) o) t =
      renderSlideFrame (preRenderSlide slide o) t ∧
    (preRenderSlide slide o).elements.map (fun re => re.element) =
      sortByOrder slide.elements ∧
    (renderSlideFrame (preRenderSlide slide o) t).ops =
      ((preRenderSlide slide o).elements.filter (fun re =>
        decide (¬ (re.animationType ≠ AnimationType.none ∧
          t < re.startTime)))).map (elementDrawOp t) := by
  refine ⟨?_, ?_, ?_⟩
  · rw [renderSlideFrame, renderSlideFrame, preRenderSlide_map_zIndex,
      List.filterMap_map]
    have hbg : (preRenderSlide (mapSlideZIndex g slide) o).backgroundColor =
        (preRenderSlide slide o).backgroundColor := rfl
    rw [hbg]
    have hcomp : (drawElement t) ∘ (mapRenderedZIndex g) = drawElement t := by
      funext re
      exact drawElement_map_zIndex t g re
    rw [hcomp]
  · show (resolveElements (slideTransitionDuration slide) o
      (sortByOrder slide.elements)
      (slideTransitionDuration slide, [])).map (fun re => re.element) = _
    rw [resolveElements_map_element]
    rfl
  · rw [renderSlideFrame]
    exact filterMap_guard _ _ _

/-! ### C10 — raw transition progress values -/

/-- C10: for a slide with a transition and any preceding slide, the raw
progress values handed to the transition compositor are exactly
`frame / n` for `frame = 0 .. n−1`, where
`n = ceil(transitionDuration × fps)`: every progress lies in `[0, 1)` —
the completed state `1` is never emitted — and when the segment is
non-empty, the first emitted transition frame has progress exactly `0`. -/
theorem slideFrames_transition_progress (prev slide : RenderedSlide)
    (fps : ℚ) (h : slide.transitionType ≠ SlideTransitionType.none) :
    ((slideFrames fps (Option.some prev) slide).filterMap transitionProgressOf =
      (List.range (ceilFrames (slide.transitionDuration * fps))).map
        (fun f : ℕ => (f : ℚ) /
          ((ceilFrames (slide.transitionDuration * fps) : ℕ) : ℚ))) ∧
    (∀ q ∈ (slideFrames fps (Option.some prev) slide).filterMap
        transitionProgressOf, 0 ≤ q ∧ q < 1) ∧
    (0 < ceilFrames (slide.transitionDuration * fps) →
      ((slideFrames fps (Option.some prev) slide).filterMap
        transitionProgressOf).head? = Option.some 0) := by
  have hcond : (Option.some prev).isSome ∧
      slide.transitionType ≠ SlideTransitionType.none := ⟨rfl, h⟩
  have h1 : (slideFrames fps (Option.some prev) slide).filterMap
      transitionProgressOf =
      (List.range (ceilFrames (slide.transitionDuration * fps))).map
        (fun f : ℕ => (f : ℚ) /
          ((ceilFrames (slide.transitionDuration * fps) : ℕ) : ℚ)) := by
    rw [slideFrames, if_pos hcond, List.filterMap_append]
    have ha : ((List.range (ceilFrames (slide.transitionDuration * fps))).map
        (fun frame : ℕ => FrameKind.transition ((frame : ℚ) /
          ((ceilFrames (slide.transitionDuration * fps) : ℕ) : ℚ)))).filterMap
        transitionProgressOf =
        (List.range (ceilFrames (slide.transitionDuration * fps))).map
          (fun f : ℕ => (f : ℚ) /
            ((ceilFrames (slide.transitionDuration * fps) : ℕ) : ℚ)) := by
      rw [List.filterMap_map]
      exact congrFun (List.filterMap_eq_map _) _
    have hb : ((List.range (ceilFrames (contentDuration slide * fps))).map
        (fun frame : ℕ => FrameKind.content (slide.transitionDuration +
          (frame : ℚ) / fps))).filterMap transitionProgressOf = [] := by
      rw [List.filterMap_map]
      simp [Function.comp_def, transitionProgressOf]
    rw [ha, hb, List.append_nil]
  refine ⟨h1, ?_, ?_⟩
  · intro q hq
    rw [h1] at hq
    rcases List.mem_map.mp hq with ⟨f, hf, rfl⟩
    rw [List.mem_range] at hf
    have hn : 0 < ceilFrames (slide.transitionDuration * fps) :=
      lt_of_le_of_lt (Nat.zero_le f) hf
    constructor
    · exact div_nonneg (Nat.cast_nonneg f) (Nat.cast_nonneg _)
    · rw [div_lt_one (by exact_mod_cast hn)]
      exact_mod_cast hf
  · intro hn
    rw [h1]
    generalize hgen : ceilFrames (slide.transitionDuration * fps) = n at hn ⊢
    cases n with
    | zero => exact absurd hn (lt_irrefl 0)
    | succ m =>
        rw [List.range_succ_eq_map, List.map_cons, List.head?_cons]
        norm_num

/-- C10 (witness): in the two-slide scenario at `fps = 10`, slide 2's
transition segment exists and its first transition frame has raw progress
exactly 0. -/
theorem slideFrames_transition_progress_witness :
    (preRenderSlide slideS2 opts10).transitionType ≠
      SlideTransitionType.none ∧
    ((slideFrames 10 (Option.some (preRenderSlide slideS1 opts10))
      (preRenderSlide slideS2 opts10)).filterMap
        transitionProgressOf).head? = Option.some 0 := by
  constructor
  · with_unfolding_all decide
  · refine (slideFrames_transition_progress (preRenderSlide slideS1 opts10)
      (preRenderSlide slideS2 opts10) 10 (by with_unfolding_all decide)).2.2 ?_
    with_unfolding_all decide

/-! ### C4 — `flip`, `blur` and `dissolve` compositing -/

/-- C4 (counterexample): in the pre-rendered pipeline's compositor (the one
`exportToVideo` calls), transition type `flip` falls through to the
`default` arm: at progress `1/4` — where the claim requires only the
previous-slide bitmap, horizontally compressed — it draws exactly one
bitmap, the next slide's background canvas, at full size. -/
theorem renderTransitionFrameV1_flip_draws_bg_only_cex :
    renderTransitionFrameV1 (preRenderSlide slideS1 defaultOptions)
      (preRenderSlide slideFlip defaultOptions) (1/4) defaultOptions =
      [{ src := TransitionSource.nextBg, x := 0, y := 0,
         w := Option.none, h := Option.none }] ∧
    (renderTransitionFrameV1 (preRenderSlide slideS1 defaultOptions)
      (preRenderSlide slideFlip defaultOptions) (1/4) defaultOptions).map
      (fun op => op.src) = [TransitionSource.nextBg] := by
  refine ⟨?_, ?_⟩ <;> with_unfolding_all decide

/-- C4 (amended): the described `flip`/`blur`/`dissolve` algorithms are
those of the snapshot-based compositor (`renderTransitionFrameV2`): for
`progress < 0.5` `flip` draws only the previous bitmap horizontally
compressed to `1 − 2·progress` of the width and centred, for
`progress ≥ 0.5` only the next bitmap at width `(progress − 0.5)·2` of the
full width, growing to full width; `blur` and `dissolve` are crossfades of
the two bitmaps, `dissolve` additionally raising brightness on the outgoing
image (`1 + e`) and lowering it towards rest on the incoming one (`2 − e`).
In the pre-rendered pipeline's compositor (`renderTransitionFrameV1`),
however, all three types fall to the `default` arm and draw only the next
slide's background. -/
theorem renderTransitionFrame_flip_blur_dissolve (p : ℚ)
    (o : VideoExportOptions) :
    (p < 0.5 →
      renderTransitionFrameV2 SlideTransitionType.flip p o =
        [{ src := TransitionSource.prevImage,
           x := (o.width - o.width * (1 - p * 2)) / 2, y := 0,
           w := Option.some (o.width * (1 - p * 2)),
           h := Option.some o.height }]) ∧
    (0.5 ≤ p →
      renderTransitionFrameV2 SlideTransitionType.flip p o =
        [{ src := TransitionSource.nextImage,
           x := (o.width - o.width * ((p - 0.5) * 2)) / 2, y := 0,
           w := Option.some (o.width * ((p - 0.5) * 2)),
           h := Option.some o.height }]) ∧
    (renderTransitionFrameV2 SlideTransitionType.blur p o =
      [{ src := TransitionSource.prevImage, alpha := 1 - easeInOutCubic p,
         x := 0, y := 0, w := Option.some o.width, h := Option.some o.height },
       { src := TransitionSource.nextImage, alpha := easeInOutCubic p,
         x := 0, y := 0, w := Option.some o.width,
         h := Option.some o.height }]) ∧
    (renderTransitionFrameV2 SlideTransitionType.dissolve p o =
      [{ src := TransitionSource.prevImage, alpha := 1 - easeInOutCubic p,
         brightness := 1 + easeInOutCubic p,
         x := 0, y := 0, w := Option.some o.width, h := Option.some o.height },
       { src := TransitionSource.nextImage, alpha := easeInOutCubic p,
         brightness := 2 - easeInOutCubic p,
         x := 0, y := 0, w := Option.some o.width,
         h := Option.some o.height }]) ∧
    (∀ prevSlide nextSlide : RenderedSlide,
      (nextSlide.transitionType = SlideTransitionType.flip ∨
       nextSlide.transitionType = SlideTransitionType.blur ∨
       nextSlide.transitionType = SlideTransitionType.dissolve) →
      renderTransitionFrameV1 prevSlide nextSlide p o =
        [{ src := TransitionSource.nextBg, x := 0, y := 0,
           w := Option.none, h := Option.none }]) := by
  refine ⟨?_, ?_, ?_, ?_, ?_⟩
  · intro hp
    simp only [renderTransitionFrameV2]
    rw [if_pos hp]
  · intro hp
    simp only [renderTransitionFrameV2]
    rw [if_neg (not_lt.mpr hp)]
  · rfl
  · rfl
  · intro prevSlide nextSlide h
    rcases h with h | h | h <;> simp only [renderTransitionFrameV1, h]

/-- C4 (witness): the `flip` first-half branch instantiated at progress
`1/4` and the default export options. -/
theorem renderTransitionFrame_flip_blur_dissolve_witness :
    ((1 : ℚ)/4 < 0.5) ∧
    renderTransitionFrameV2 SlideTransitionType.flip (1/4) defaultOptions =
      [{ src := TransitionSource.prevImage,
         x := (defaultOptions.width - defaultOptions.width * (1 - (1/4) * 2)) / 2,
         y := 0,
         w := Option.some (defaultOptions.width * (1 - (1/4) * 2)),
         h := Option.some defaultOptions.height }] :=
  ⟨by norm_num,
   (renderTransitionFrame_flip_blur_dissolve (1/4) defaultOptions).1
     (by norm_num)⟩

end VideoExport

